import Mathlib

/-!
Shallow embedding of `tianyi-auto` (src/src/main.rs): a daemon that, on a
cron schedule, logs in to a Tianyi/ZTE router and issues a reboot command.

Modelling conventions:
* HTTP transport (reqwest) is an oracle `env : Request → ReqResult` deciding
  the outcome of each outbound POST; the embedding records the list of
  requests actually issued.
* URLs follow the WHATWG model of the `url` crate: a special-scheme URL
  always has a non-empty path, and `set_path("")` normalises the path to
  "/".
* Wall-clock instants are `Nat` seconds (scheduler) and `Int` milliseconds
  relative to the Unix epoch (reboot timestamp); `SystemTime::duration_since`
  fails exactly when the clock is before the epoch.
* The external `cron` crate is modelled from its documented contract: a
  parsed schedule is a set of allowed values per calendar field, and
  `Schedule::after(&now).next()` is the first matching instant strictly
  after `now`, bounded by the schedule's year range (`None` beyond it).
-/

namespace TianyiAuto

/-- Model of `url::Url` restricted to the special (http/https) schemes the
program uses: scheme, host, optional port, path, optional query, optional
fragment. -/
structure Url where
  scheme : String
  host : String
  port : Option Nat
  path : String
  query : Option String
  fragment : Option String
deriving DecidableEq, Repr

/-- Serialisation of a URL, as `Url::as_str` renders it. -/
def Url.asStr (u : Url) : String :=
  u.scheme ++ "://" ++ u.host
    ++ (match u.port with | none => "" | some p => ":" ++ toString p)
    ++ u.path
    ++ (match u.query with | none => "" | some q => "?" ++ q)
    ++ (match u.fragment with | none => "" | some f => "#" ++ f)

/-- Model of `Url::set_path`: on a special-scheme URL the empty path is
normalised to "/". -/
def Url.setPath (u : Url) (p : String) : Url :=
  { u with path := if p = "" then "/" else p }

/-- Model of `Url::set_query`. -/
def Url.setQuery (u : Url) (q : Option String) : Url :=
  { u with query := q }

/-- Model of `Url::set_fragment`. -/
def Url.setFragment (u : Url) (f : Option String) : Url :=
  { u with fragment := f }

/-- Model of `url.query_pairs_mut().append_pair(k, v)`: appends `k=v` to the
query, preceded by `&` when a non-empty query is already present.  (The
program only appends the key `timeStamp` with a decimal value, for which the
form-urlencoding is the identity.) -/
def Url.appendPair (u : Url) (k v : String) : Url :=
  { u with query := some (match u.query with
      | none => k ++ "=" ++ v
      | some q => if q = "" then k ++ "=" ++ v else q ++ "&" ++ k ++ "=" ++ v) }

/-- Translation of `origin_of` (main.rs:261-267): clone the URL, clear path,
query and fragment.  (In the source it returns `Result` but never fails.) -/
def origin_of (u : Url) : Url :=
  ((u.setPath "").setQuery none).setFragment none

/-- Translation of the `Config` struct (main.rs:63-73). -/
structure Config where
  login_url : Url
  reboot_url : Url
  reboot_referer : Url
  username : String
  password : String
  login_token : String
  frashnum : String
  add_timestamp : Bool
deriving Repr

/-- Minimal JSON value model covering the reboot payload. -/
inductive Json where
  | str (s : String)
  | obj (fields : List (String × Json))
deriving Repr

mutual

/-- Compact JSON rendering (no whitespace), as `serde_json::to_string`. -/
def Json.render : Json → String
  | .str s => "\"" ++ s ++ "\""
  | .obj fs => "\x7b" ++ Json.renderFields fs ++ "\x7d"

/-- Renders the comma-separated field list of a JSON object. -/
def Json.renderFields : List (String × Json) → String
  | [] => ""
  | [(k, v)] => "\"" ++ k ++ "\":" ++ Json.render v
  | (k, v) :: rest =>
      "\"" ++ k ++ "\":" ++ Json.render v ++ "," ++ Json.renderFields rest

end

/-- An outbound HTTP POST as the program builds it: target URL, the
per-request headers set explicitly in the source, and the form body as a
list of key/value pairs. -/
structure Request where
  url : Url
  headers : List (String × String)
  form : List (String × String)
deriving Repr

/-- An HTTP response as the program inspects it: status code and the cookies
set by the response. -/
structure Response where
  status : Nat
  cookies : List String
deriving Repr

/-- Outcome of one outbound request: a response, or a transport error
(`reqwest` send failure). -/
inductive ReqResult where
  | ok (r : Response)
  | transportError (msg : String)
deriving Repr

/-- Model of `StatusCode::is_success`: 2xx. -/
def statusIsSuccess (s : Nat) : Bool :=
  decide (200 ≤ s) && decide (s < 300)

/-- Log levels of the `log` crate as the program uses them. -/
inductive LogLevel where
  | debug | info | warn | error
deriving DecidableEq, Repr

/-- Result of one step (or one cycle): the `anyhow::Result`, the outbound
requests issued, and the log lines emitted. -/
structure StepOut where
  result : Except String Unit
  requests : List Request
  logs : List (LogLevel × String)
deriving Repr

/-- Translation of the login form (main.rs:137-142).  The source stores the
fields in a `HashMap`, whose serialisation order is unspecified; insertion
order is used here.  No claim depends on the order. -/
def loginForm (cfg : Config) : List (String × String) :=
  [("frashnum", cfg.frashnum),
   ("action", "login"),
   ("Frm_Logintoken", cfg.login_token),
   ("user_name", cfg.username),
   ("Password", cfg.password)]

/-- The outbound login request built in `login` (main.rs:144-152). -/
def loginRequest (cfg : Config) : Request :=
  { url := cfg.login_url
  , headers :=
      [("Content-Type", "application/x-www-form-urlencoded"),
       ("Origin", (origin_of cfg.login_url).asStr),
       ("Upgrade-Insecure-Requests", "1"),
       ("Referer", cfg.login_url.asStr)]
  , form := loginForm cfg }

/-- Translation of `login` (main.rs:136-170): issue the login POST; a
transport error or a non-success status is an error; missing cookies only
produce a warning. -/
def login (env : Request → ReqResult) (cfg : Config) : StepOut :=
  let req := loginRequest cfg
  match env req with
  | .transportError m =>
      { result := .error ("login request failed: " ++ m)
      , requests := [req], logs := [] }
  | .ok r =>
      let dbg := (LogLevel.debug, "login status=" ++ toString r.status)
      if statusIsSuccess r.status then
        if r.cookies.isEmpty then
          { result := .ok ()
          , requests := [req]
          , logs := [dbg, (LogLevel.warn,
              "No cookies received from login; device may still accept commands without cookie.")] }
        else
          { result := .ok ()
          , requests := [req]
          , logs := [dbg, (LogLevel.debug, "Login cookies captured.")] }
      else
        { result := .error ("login failed with status " ++ toString r.status)
        , requests := [req], logs := [dbg] }

/-- Model of `SystemTime::now().duration_since(UNIX_EPOCH)` with the clock
given as signed milliseconds since the epoch: fails exactly when the clock
is before the epoch. -/
def duration_since_epoch (clockMs : Int) : Option Nat :=
  if 0 ≤ clockMs then some clockMs.toNat else none

/-- The reboot timestamp (main.rs:176-179): `duration_since(UNIX_EPOCH)`,
`unwrap_or_default` (zero duration on failure), in milliseconds. -/
def rebootTs (clockMs : Int) : Nat :=
  (duration_since_epoch clockMs).getD 0

/-- The reboot target URL (main.rs:174-182): the configured reboot URL, with
a `timeStamp` query pair appended when `add_timestamp` is set. -/
def rebootUrl (cfg : Config) (clockMs : Int) : Url :=
  if cfg.add_timestamp then
    cfg.reboot_url.appendPair "timeStamp" (toString (rebootTs clockMs))
  else
    cfg.reboot_url

/-- The reboot JSON payload (main.rs:184-190), with the fields in the order
written in the `json!` literal. -/
def rebootPayload : Json :=
  .obj [("RPCMethod", .str "Post"),
        ("Parameter", .obj [("CmdType", .str "HG_COMMAND_REBOOT")])]

/-- The outbound reboot request built in `reboot` (main.rs:173-203).  The
Origin header is derived from the configured reboot URL before the
timestamp is appended. -/
def rebootRequest (cfg : Config) (clockMs : Int) : Request :=
  { url := rebootUrl cfg clockMs
  , headers :=
      [("Content-Type", "application/x-www-form-urlencoded; charset=UTF-8"),
       ("X-Requested-With", "XMLHttpRequest"),
       ("Accept", "application/json, text/javascript, */*; q=0.01"),
       ("Origin", (origin_of cfg.reboot_url).asStr),
       ("Referer", cfg.reboot_referer.asStr)]
  , form := [("jsonCfg", rebootPayload.render)] }

/-- Translation of `reboot` (main.rs:172-213): issue the reboot POST; a
transport error or a non-success status is an error. -/
def reboot (env : Request → ReqResult) (cfg : Config) (clockMs : Int) : StepOut :=
  let req := rebootRequest cfg clockMs
  match env req with
  | .transportError m =>
      { result := .error ("reboot request failed: " ++ m)
      , requests := [req], logs := [] }
  | .ok r =>
      let dbg := (LogLevel.debug, "reboot status=" ++ toString r.status)
      if statusIsSuccess r.status then
        { result := .ok (), requests := [req], logs := [dbg] }
      else
        { result := .error ("reboot request returned " ++ toString r.status)
        , requests := [req], logs := [dbg] }

/-- Translation of `run_once` (main.rs:245-251): login, and only on its
success, reboot. -/
def run_once (env : Request → ReqResult) (cfg : Config) (clockMs : Int) : StepOut :=
  let l := login env cfg
  match l.result with
  | .error e => { result := .error e, requests := l.requests, logs := l.logs }
  | .ok _ =>
      let logs₁ := l.logs ++ [(LogLevel.info, "Login request sent.")]
      let r := reboot env cfg clockMs
      match r.result with
      | .error e =>
          { result := .error e
          , requests := l.requests ++ r.requests
          , logs := logs₁ ++ r.logs }
      | .ok _ =>
          { result := .ok ()
          , requests := l.requests ++ r.requests
          , logs := logs₁ ++ r.logs ++ [(LogLevel.info, "Reboot command dispatched.")] }

/-- Translation of `to_std` (main.rs:253-259), with `chrono::TimeDelta` as
signed seconds and `std::time::Duration` as `Nat`: `TimeDelta::to_std` fails
exactly when the delta is negative, and the failure is replaced by a zero
duration. -/
def to_std (delta : Int) : Nat :=
  if 0 ≤ delta then delta.toNat else 0

/-- Civil date (year, month, day) of a day count since 1970-01-01, by the
standard Gregorian-calendar decomposition (days-to-civil). -/
def civilFromDays (z : Nat) : Nat × Nat × Nat :=
  let z' := z + 719468
  let era := z' / 146097
  let doe := z' % 146097
  let yoe := (doe - doe / 1460 + doe / 36524 - doe / 146096) / 365
  let y := yoe + era * 400
  let doy := doe - (365 * yoe + yoe / 4 - yoe / 100)
  let mp := (5 * doy + 2) / 153
  let d := doy - (153 * mp + 2) / 5 + 1
  let m := if mp < 10 then mp + 3 else mp - 9
  (if m ≤ 2 then y + 1 else y, m, d)

/-- Modelled from the spec: a parsed cron schedule of the external `cron`
crate (`cron::Schedule`, not repository code), as the set of allowed values
of each calendar field — seconds, minutes, hours, days of month, months,
days of week, years.  The crate bounds the year field, so a schedule can run
out of future occurrences. -/
structure Schedule where
  seconds : List Nat
  minutes : List Nat
  hours : List Nat
  daysOfMonth : List Nat
  months : List Nat
  daysOfWeek : List Nat
  years : List Nat
deriving Repr

/-- Whether the instant `t` (seconds since epoch) matches every field of the
schedule.  Weekday 0 is Sunday (1970-01-01 was a Thursday, weekday 4). -/
def Schedule.matchesAt (s : Schedule) (t : Nat) : Bool :=
  let sec := t % 60
  let min := t / 60 % 60
  let hour := t / 3600 % 24
  let days := t / 86400
  let wd := (days + 4) % 7
  let c := civilFromDays days
  s.seconds.contains sec && s.minutes.contains min && s.hours.contains hour
    && s.daysOfMonth.contains c.2.2 && s.months.contains c.2.1
    && s.daysOfWeek.contains wd && s.years.contains c.1

/-- Upper bound (inclusive, in seconds since epoch, over-approximated) on
any instant the schedule can match: the year field is bounded, and every
year has at most 366 days. -/
def Schedule.endBound (s : Schedule) : Nat :=
  (s.years.foldr max 0 + 1 - 1970) * 366 * 86400

/-- First instant `t` in `[start, start + fuel)` with `s.matchesAt t`. -/
def afterAux (s : Schedule) : Nat → Nat → Option Nat
  | 0, _ => none
  | fuel + 1, t => if s.matchesAt t then some t else afterAux s fuel (t + 1)

/-- Modelled from the spec: `schedule.after(&now).next()` of the `cron`
crate — the first instant strictly after `now` matching the schedule, or
`none` when the schedule's bounded year range holds no such instant. -/
def Schedule.after (s : Schedule) (now : Nat) : Option Nat :=
  afterAux s (s.endBound - now) (now + 1)

/-- One iteration's environment for the scheduler loop: the wall clock read
by `Local::now()` at the top of the loop (seconds since epoch), the HTTP
oracle for the cycle, and the system clock (milliseconds since epoch) read
when the cycle builds its reboot request. -/
structure Iter where
  now : Nat
  env : Request → ReqResult
  clockMs : Int

/-- Observable record of one executed loop iteration: the computed next
trigger, the (clamped) sleep duration, the cycle's result, and the error
line logged at the loop boundary when the cycle failed. -/
structure IterOut where
  next : Nat
  wait : Nat
  cycle : Except String Unit
  loggedErr : Option String
deriving Repr

/-- The trace the loop produces for one iteration environment. -/
def iterOut (cfg : Config) (it : Iter) (next : Nat) : IterOut :=
  let cycle := (run_once it.env cfg it.clockMs).result
  { next := next
  , wait := to_std ((next : Int) - (it.now : Int))
  , cycle := cycle
  , loggedErr := match cycle with
      | .error e => some ("Scheduled run failed: " ++ e)
      | .ok _ => none }

/-- Translation of the infinite `loop` of `run_scheduler` (main.rs:225-242),
run for as many iterations as the given list of per-iteration environments
(the fuel): read `now`, compute the next trigger (no future trigger is a
fatal error), sleep the clamped delta, run one cycle, log — but never
propagate — its failure, and continue. -/
def run_scheduler_loop (cfg : Config) (s : Schedule) :
    List Iter → Except String (List IterOut)
  | [] => .ok []
  | it :: rest =>
      match s.after it.now with
      | none => .error "cron produced no future times"
      | some next =>
          match run_scheduler_loop cfg s rest with
          | .error e => .error e
          | .ok trace => .ok (iterOut cfg it next :: trace)

/-- Translation of `run_scheduler` (main.rs:215-243).  Cron parsing happens
in the external `cron` crate; its outcome is a parameter.  When `run_now` is
set one cycle runs first and its failure is logged, not propagated.  The
value is the immediate run's result (when any) and the loop's trace;
`main` (main.rs:93) returns this `Result` verbatim, so a loop error
terminates the process with a non-zero status. -/
def run_scheduler (cfg : Config) (parsed : Except String Schedule)
    (run_now : Bool) (first : Request → ReqResult) (clockMs₀ : Int)
    (iters : List Iter) :
    Except String (Option (Except String Unit) × List IterOut) :=
  match parsed with
  | .error e => .error ("invalid cron expression: " ++ e)
  | .ok s =>
      let immediate :=
        if run_now then some (run_once first cfg clockMs₀).result else none
      match run_scheduler_loop cfg s iters with
      | .error e => .error e
      | .ok trace => .ok (immediate, trace)

/-- Concrete URL matching the program's default host, for witnesses. -/
def testBase : Url :=
  { scheme := "http", host := "192.168.1.1", port := none
  , path := "/", query := none, fragment := none }

/-- Concrete configuration mirroring the program's defaults, for witnesses. -/
def testCfg : Config :=
  { login_url := testBase
  , reboot_url := { testBase with path := "/common_page/gatewayManage.lua" }
  , reboot_referer := { testBase with path := "/common_page/main.lp" }
  , username := "useradmin"
  , password := "secret"
  , login_token := "5"
  , frashnum := ""
  , add_timestamp := true }

/-- Schedule matching every second of 1970, for witnesses. -/
def everySecond : Schedule :=
  { seconds := List.range 60
  , minutes := List.range 60
  , hours := List.range 24
  , daysOfMonth := List.range' 1 31
  , months := List.range' 1 12
  , daysOfWeek := List.range 7
  , years := [1970] }

/-- Schedule whose year set is empty, hence with no future occurrence, for
witnesses. -/
def noFuture : Schedule :=
  { everySecond with years := [] }

/-- HTTP oracle answering every request with a 403 response, for witnesses. -/
def env403 : Request → ReqResult := fun _ => .ok { status := 403, cookies := [] }

/-- HTTP oracle answering every request with a cookie-less 200 response, for
witnesses. -/
def env200 : Request → ReqResult := fun _ => .ok { status := 200, cookies := [] }

/-- HTTP oracle answering every request with a 500 response, for witnesses. -/
def env500 : Request → ReqResult := fun _ => .ok { status := 500, cookies := [] }

/-- Written from the spec's words: the exact JSON object the reboot body's
`jsonCfg` field must parse to. -/
def specRebootJson : Json :=
  .obj [("RPCMethod", .str "Post"),
        ("Parameter", .obj [("CmdType", .str "HG_COMMAND_REBOOT")])]

theorem rebootRequest_ne_loginRequest (cfg cfg' : Config) (c : Int) :
    rebootRequest cfg c ≠ loginRequest cfg' := by
  intro h
  have hlen := congrArg (fun r => r.headers.length) h
  simp [rebootRequest, loginRequest] at hlen

theorem afterAux_le (s : Schedule) :
    ∀ fuel start t : Nat, afterAux s fuel start = some t → start ≤ t := by
  intro fuel
  induction fuel with
  | zero => intro start t h; simp [afterAux] at h
  | succ n ih =>
      intro start t h
      rw [afterAux] at h
      by_cases hm : s.matchesAt start = true
      · rw [if_pos hm] at h
        injection h with h'
        exact Nat.le_of_eq h'
      · rw [if_neg hm] at h
        exact le_trans (Nat.le_succ start) (ih (start + 1) t h)

theorem run_scheduler_loop_ok (cfg : Config) (s : Schedule) :
    ∀ iters : List Iter, (∀ it ∈ iters, (s.after it.now).isSome) →
    run_scheduler_loop cfg s iters =
      .ok (iters.map fun it => iterOut cfg it ((s.after it.now).getD 0)) := by
  intro iters
  induction iters with
  | nil => intro _; rfl
  | cons it rest ih =>
      intro h
      obtain ⟨next, hn⟩ := Option.isSome_iff_exists.mp (h it (List.mem_cons_self it rest))
      have hrest := ih fun x hx => h x (List.mem_cons_of_mem _ hx)
      simp [run_scheduler_loop, hn, hrest]

/-- C3: for every cron schedule and every current instant `now`, the next
trigger computed by the scheduler loop (`schedule.after(&now).next()`,
main.rs:226-230) is strictly after `now` — never equal to it and never in
the past. -/
theorem next_trigger_strictly_after (s : Schedule) (now t : Nat)
    (h : s.after now = some t) : now < t :=
  Nat.lt_of_succ_le (afterAux_le s (s.endBound - now) (now + 1) t h)

/-- Witness for C3 at a schedule matching every second and `now = 0`. -/
theorem next_trigger_strictly_after_witness :
    everySecond.after 0 = some 1 ∧ 0 < 1 :=
  ⟨by decide, next_trigger_strictly_after everySecond 0 1 (by decide)⟩

/-- C4: when the cron schedule yields no future trigger on a loop iteration,
`run_scheduler` returns the fatal error `cron produced no future times`
(main.rs:227-230) instead of looping or sleeping forever; `main` returns
this `Result` directly (main.rs:93), terminating the process with a
non-zero status and that message. -/
theorem cron_exhausted_is_fatal (cfg : Config) (s : Schedule)
    (run_now : Bool) (first : Request → ReqResult) (clockMs₀ : Int)
    (it : Iter) (rest : List Iter) (h : s.after it.now = none) :
    run_scheduler cfg (.ok s) run_now first clockMs₀ (it :: rest) =
      .error "cron produced no future times" := by
  simp [run_scheduler, run_scheduler_loop, h]

/-- Witness for C4 at a schedule with an empty year set. -/
theorem cron_exhausted_is_fatal_witness :
    run_scheduler testCfg (.ok noFuture) false env200 0 [⟨0, env200, 0⟩] =
      .error "cron produced no future times" :=
  cron_exhausted_is_fatal testCfg noFuture false env200 0 ⟨0, env200, 0⟩ []
    (by decide)

/-- C2: as long as every iteration has a next trigger, `run_scheduler`
executes every scheduled iteration and returns the full trace — a cycle
failure is recorded (with its `Scheduled run failed` error log) but never
terminates the loop or escapes it, and each iteration's next trigger is
computed fresh from that iteration's own wall clock `it.now`, independent of
every earlier cycle's outcome (main.rs:218-242). -/
theorem cycle_failure_never_stops_loop (cfg : Config) (s : Schedule)
    (run_now : Bool) (first : Request → ReqResult) (clockMs₀ : Int)
    (iters : List Iter) (h : ∀ it ∈ iters, (s.after it.now).isSome) :
    run_scheduler cfg (.ok s) run_now first clockMs₀ iters =
      .ok ((if run_now then some (run_once first cfg clockMs₀).result else none),
           iters.map fun it => iterOut cfg it ((s.after it.now).getD 0)) := by
  simp [run_scheduler, run_scheduler_loop_ok cfg s iters h]

/-- Witness for C2: one iteration whose cycle fails (HTTP 500 on login)
still yields an `ok` trace. -/
theorem cycle_failure_never_stops_loop_witness :
    run_scheduler testCfg (.ok everySecond) false env500 0 [⟨0, env500, 0⟩] =
      .ok (none, [(⟨0, env500, 0⟩ : Iter)].map
            fun it => iterOut testCfg it ((everySecond.after it.now).getD 0)) :=
  cycle_failure_never_stops_loop testCfg everySecond false env500 0
    [⟨0, env500, 0⟩]
    (by intro it hit
        rw [List.mem_singleton] at hit
        subst hit
        decide)

/-- C1: whenever the login request fails — by transport error or by a
non-success HTTP status — `run_once` aborts with a login failure: its result
is an error, the only outbound request of the cycle is the login request,
and the reboot request is never issued (main.rs:158-160, 245-251). -/
theorem login_failure_skips_reboot (env : Request → ReqResult) (cfg : Config)
    (clockMs : Int)
    (h : (∃ m, env (loginRequest cfg) = .transportError m) ∨
         (∃ r, env (loginRequest cfg) = .ok r ∧ statusIsSuccess r.status = false)) :
    (∃ e, (run_once env cfg clockMs).result = .error e) ∧
    (run_once env cfg clockMs).requests = [loginRequest cfg] ∧
    rebootRequest cfg clockMs ∉ (run_once env cfg clockMs).requests := by
  have hne := rebootRequest_ne_loginRequest cfg cfg clockMs
  rcases h with ⟨m, hm⟩ | ⟨r, hr, hs⟩
  · refine ⟨⟨"login request failed: " ++ m, ?_⟩, ?_, ?_⟩ <;>
      simp [run_once, login, hm, hne]
  · refine ⟨⟨"login failed with status " ++ toString r.status, ?_⟩, ?_, ?_⟩ <;>
      simp [run_once, login, hr, hs, hne]

/-- Witness for C1: a 403 login response aborts the cycle before reboot. -/
theorem login_failure_skips_reboot_witness :
    (∃ e, (run_once env403 testCfg 5).result = .error e) ∧
    (run_once env403 testCfg 5).requests = [loginRequest testCfg] ∧
    rebootRequest testCfg 5 ∉ (run_once env403 testCfg 5).requests :=
  login_failure_skips_reboot env403 testCfg 5
    (Or.inr ⟨{ status := 403, cookies := [] }, rfl, by decide⟩)

/-- C6: a login response with a success status but no cookie still counts as
a successful login — the absence is only logged as a warning — and the cycle
goes on to issue the reboot request (main.rs:162-169, 245-251). -/
theorem cookieless_login_proceeds (env : Request → ReqResult) (cfg : Config)
    (clockMs : Int) (r : Response)
    (h : env (loginRequest cfg) = .ok r)
    (hs : statusIsSuccess r.status = true)
    (hc : r.cookies = []) :
    (login env cfg).result = .ok () ∧
    (LogLevel.warn,
      "No cookies received from login; device may still accept commands without cookie.")
      ∈ (login env cfg).logs ∧
    (run_once env cfg clockMs).requests =
      [loginRequest cfg, rebootRequest cfg clockMs] := by
  refine ⟨?_, ?_, ?_⟩
  · simp [login, h, hs, hc]
  · simp [login, h, hs, hc]
  · rcases h2 : env (rebootRequest cfg clockMs) with r2 | m2
    · by_cases hs2 : statusIsSuccess r2.status <;>
        simp [run_once, login, reboot, h, hs, hc, h2, hs2]
    · simp [run_once, login, reboot, h, hs, hc, h2]

/-- Witness for C6: a cookie-less 200 login response leads to a reboot
request. -/
theorem cookieless_login_proceeds_witness :
    (login env200 testCfg).result = .ok () ∧
    (LogLevel.warn,
      "No cookies received from login; device may still accept commands without cookie.")
      ∈ (login env200 testCfg).logs ∧
    (run_once env200 testCfg 5).requests =
      [loginRequest testCfg, rebootRequest testCfg 5] :=
  cookieless_login_proceeds env200 testCfg 5 { status := 200, cookies := [] }
    rfl (by decide) rfl

/-- C5: the sleep-duration conversion `to_std` (main.rs:253-259) is total
(never panics), never yields a negative duration (its codomain is `Nat`),
clamps every negative delta to zero, and is the identity on non-negative
deltas; the scheduler's wait is exactly `to_std` of next-trigger minus now
(main.rs:231-238). -/
theorem sleep_duration_clamped (delta : Int) (cfg : Config) (it : Iter)
    (next : Nat) :
    (delta < 0 → to_std delta = 0) ∧
    ((to_std delta : Int) = max delta 0) ∧
    (iterOut cfg it next).wait = to_std ((next : Int) - (it.now : Int)) := by
  refine ⟨?_, ?_, rfl⟩
  · intro h
    simp [to_std, not_le.mpr h]
  · by_cases h : 0 ≤ delta
    · simp [to_std, h, Int.toNat_of_nonneg h, max_eq_left h]
    · push_neg at h
      simp [to_std, not_le.mpr h, max_eq_right (le_of_lt h)]

/-- Witness for C5 at a negative and a positive delta. -/
theorem sleep_duration_clamped_witness :
    to_std (-3) = 0 ∧ ((to_std 7 : Int) = max 7 0) :=
  ⟨(sleep_duration_clamped (-3) testCfg ⟨0, env200, 0⟩ 0).1 (by decide),
   (sleep_duration_clamped 7 testCfg ⟨0, env200, 0⟩ 0).2.1⟩

/-- C7: with the system clock at or after the epoch, the reboot URL carries
a `timeStamp` query pair exactly when `add_timestamp` is set, its value the
decimal rendering of the non-negative current epoch milliseconds; with the
flag unset the configured reboot URL is sent unchanged (main.rs:174-182). -/
theorem reboot_timestamp_iff_flag (cfg : Config) (clockMs : Int)
    (h : 0 ≤ clockMs) :
    (cfg.add_timestamp = true →
      ∃ v : Nat, (v : Int) = clockMs ∧
        rebootUrl cfg clockMs =
          cfg.reboot_url.appendPair "timeStamp" (toString v)) ∧
    (cfg.add_timestamp = false → rebootUrl cfg clockMs = cfg.reboot_url) ∧
    (rebootRequest cfg clockMs).url = rebootUrl cfg clockMs := by
  refine ⟨?_, ?_, rfl⟩
  · intro ht
    exact ⟨clockMs.toNat, Int.toNat_of_nonneg h,
      by simp [rebootUrl, ht, rebootTs, duration_since_epoch, h]⟩
  · intro hf
    simp [rebootUrl, hf]

/-- Witness for C7 at clock 5 ms with the flag set. -/
theorem reboot_timestamp_iff_flag_witness :
    (testCfg.add_timestamp = true →
      ∃ v : Nat, (v : Int) = (5 : Int) ∧
        rebootUrl testCfg 5 =
          testCfg.reboot_url.appendPair "timeStamp" (toString v)) ∧
    (testCfg.add_timestamp = false → rebootUrl testCfg 5 = testCfg.reboot_url) ∧
    (rebootRequest testCfg 5).url = rebootUrl testCfg 5 :=
  reboot_timestamp_iff_flag testCfg 5 (by decide)

/-- C8: the reboot form body is the single field `jsonCfg` whose value is
the rendering of exactly the JSON object with `RPCMethod` equal to `Post`
and `Parameter` the object with `CmdType` equal to `HG_COMMAND_REBOOT`; the
payload is the same constant on every invocation, for every configuration
and clock (main.rs:184-202). -/
theorem reboot_payload_constant (cfg cfg' : Config) (c c' : Int) :
    (rebootRequest cfg c).form = [("jsonCfg", Json.render specRebootJson)] ∧
    rebootPayload = specRebootJson ∧
    (rebootRequest cfg c).form = (rebootRequest cfg' c').form :=
  ⟨rfl, rfl, rfl⟩

/-- C9: `origin_of` keeps exactly the scheme, host and port of its argument
and resets path (to the WHATWG-normalised root "/"), query and fragment, so
its rendering is scheme `://` host (with any port) and nothing of the path,
query or fragment; both the login and the reboot request send this as their
`Origin` header, derived from their own target URL (main.rs:144-150,
173-201, 261-267). -/
theorem origin_is_scheme_host (cfg : Config) (clockMs : Int) (u : Url) :
    origin_of u =
      { scheme := u.scheme, host := u.host, port := u.port
      , path := "/", query := none, fragment := none } ∧
    (origin_of u).asStr =
      u.scheme ++ "://" ++ u.host
        ++ (match u.port with | none => "" | some p => ":" ++ toString p)
        ++ "/" ∧
    ("Origin", (origin_of cfg.login_url).asStr) ∈ (loginRequest cfg).headers ∧
    ("Origin", (origin_of cfg.reboot_url).asStr)
      ∈ (rebootRequest cfg clockMs).headers := by
  refine ⟨?_, ?_, ?_, ?_⟩
  · simp [origin_of, Url.setPath, Url.setQuery, Url.setFragment]
  · simp [origin_of, Url.setPath, Url.setQuery, Url.setFragment, Url.asStr]
  · simp [loginRequest]
  · simp [rebootRequest]

/-- C10: with the system clock before the Unix epoch, the timestamp
computation is total and defaults to zero, so a timestamped reboot URL
carries `timeStamp` with value `0` (main.rs:176-181). -/
theorem pre_epoch_timestamp_zero (cfg : Config) (clockMs : Int)
    (h : clockMs < 0) :
    rebootTs clockMs = 0 ∧
    (cfg.add_timestamp = true →
      rebootUrl cfg clockMs = cfg.reboot_url.appendPair "timeStamp" "0") := by
  have h0 : ¬ (0 ≤ clockMs) := not_le.mpr h
  have hz : rebootTs clockMs = 0 := by
    simp [rebootTs, duration_since_epoch, h0]
  refine ⟨hz, fun ht => ?_⟩
  have hs : toString (0 : Nat) = "0" := rfl
  simp [rebootUrl, ht, hz, hs]

/-- Witness for C10 at clock -1 ms. -/
theorem pre_epoch_timestamp_zero_witness :
    rebootTs (-1) = 0 ∧
    (testCfg.add_timestamp = true →
      rebootUrl testCfg (-1) = testCfg.reboot_url.appendPair "timeStamp" "0") :=
  pre_epoch_timestamp_zero testCfg (-1) (by decide)

end TianyiAuto
